import Mathlib

/-!
Shallow embedding of the incremental-monitoring core of the
TikTokAutoDownloader repository, together with proofs of the frozen
claims about it.

The embedded source functions are:
* `src/error_handler.py` — `ErrorHandler.analyze_error`,
  `ErrorHandler.is_retryable`, `ErrorHandler.get_wait_time`;
* `src/retry_utils.py` — `RetryConfig`, `get_retry_delay`;
* `src/tiktok_monitor.py` — the dedup filter inside `monitor_user`
  (lines 522-529), the retry loops of `get_user_videos` /
  `download_video`, the per-source cycle `monitor_user`, and the
  circuit-breaker accounting of `start_monitoring`.

Stateful code is modelled by explicit state passing: the SQLite rows of
`monitored_users` become a function `String → UserRecord`, and database
writes become both a new state and an explicit `Effect` trace so that
write ordering (watermark after batch) can be stated.
-/

namespace TikTokMonitor

/-- Helper for Python's `sub in s`: does the character list start with `sub`? -/
def charsStartWith : List Char → List Char → Bool
  | _, [] => true
  | [], _ :: _ => false
  | c :: cs, d :: ds => c == d && charsStartWith cs ds

/-- Python's substring operator `sub in s` over character lists: `sub`
occurs at some position of `s`. -/
def charsContain (sub : List Char) : List Char → Bool
  | [] => sub.isEmpty
  | c :: cs => charsStartWith (c :: cs) sub || charsContain sub cs

/-- Python's `str.lower()` restricted to the ASCII keywords and messages
the classifier compares (character-wise lowercase). -/
def lowerChars (s : String) : List Char :=
  s.data.map Char.toLower

/-- The error taxonomy of `ErrorType` in `src/error_handler.py` (lines 10-21). -/
inductive ErrorType
  | GEO_RESTRICTION
  | PRIVATE_VIDEO
  | DELETED_VIDEO
  | RATE_LIMIT
  | NETWORK
  | INVALID_URL
  | PERMISSION
  | DISK_SPACE
  | COOKIES_NEEDED
  | UNKNOWN
deriving DecidableEq

/-- Keyword table of `ErrorHandler.analyze_error` (`src/error_handler.py`
lines 53-201): each kind's keyword list, in the order the source tests them. -/
def geoKeywords : List String := ["geo", "not available in your", "region", "country"]

def privateKeywords : List String := ["private", "unavailable", "this video is private"]

def deletedKeywords : List String := ["removed", "deleted", "no longer available", "not found", "404"]

def rateLimitKeywords : List String := ["rate limit", "429", "too many requests", "slow down"]

def networkKeywords : List String := ["connection", "timeout", "timed out", "network", "unreachable", "no internet"]

def invalidUrlKeywords : List String := ["invalid url", "malformed", "unsupported url"]

def permissionKeywords : List String := ["permission", "access denied", "forbidden", "403"]

def diskKeywords : List String := ["disk", "space", "no space left", "storage"]

def cookiesKeywords : List String :=
  ["sign in", "login", "authentication", "unauthorized", "requiring login",
   "cookies", "unable to extract", "user id", "channel_id", "--cookies"]

/-- Embeds `ErrorHandler.analyze_error` (`src/error_handler.py` lines 53-201):
lowercase the message, then test the keyword sets in the source's fixed
order; the first match decides the kind, falling back to `UNKNOWN`. -/
def analyzeError (msg : String) : ErrorType :=
  let m := lowerChars msg
  if geoKeywords.any (fun k => charsContain k.data m) then ErrorType.GEO_RESTRICTION
  else if privateKeywords.any (fun k => charsContain k.data m) then ErrorType.PRIVATE_VIDEO
  else if deletedKeywords.any (fun k => charsContain k.data m) then ErrorType.DELETED_VIDEO
  else if rateLimitKeywords.any (fun k => charsContain k.data m) then ErrorType.RATE_LIMIT
  else if networkKeywords.any (fun k => charsContain k.data m) then ErrorType.NETWORK
  else if invalidUrlKeywords.any (fun k => charsContain k.data m) then ErrorType.INVALID_URL
  else if permissionKeywords.any (fun k => charsContain k.data m) then ErrorType.PERMISSION
  else if diskKeywords.any (fun k => charsContain k.data m) then ErrorType.DISK_SPACE
  else if cookiesKeywords.any (fun k => charsContain k.data m) then ErrorType.COOKIES_NEEDED
  else ErrorType.UNKNOWN

/-- The `retryable_types` list of `ErrorHandler.is_retryable`
(`src/error_handler.py` lines 270-274). -/
def retryableTypes : List ErrorType := [ErrorType.NETWORK, ErrorType.RATE_LIMIT]

/-- The `non_retryable_types` list of `ErrorHandler.is_retryable`
(`src/error_handler.py` lines 277-286). -/
def nonRetryableTypes : List ErrorType :=
  [ErrorType.DELETED_VIDEO, ErrorType.PRIVATE_VIDEO, ErrorType.INVALID_URL,
   ErrorType.DISK_SPACE, ErrorType.GEO_RESTRICTION, ErrorType.COOKIES_NEEDED,
   ErrorType.PERMISSION, ErrorType.UNKNOWN]

/-- Embeds `ErrorHandler.is_retryable` (`src/error_handler.py` lines 258-295):
non-retryable list first, then retryable list, default `False`. -/
def isRetryable (k : ErrorType) : Bool :=
  if k ∈ nonRetryableTypes then false
  else if k ∈ retryableTypes then true
  else false

/-- Embeds `ErrorHandler.get_wait_time` (`src/error_handler.py` lines 299-317):
the fixed per-kind wait table with default 30. -/
def getWaitTime (k : ErrorType) : Nat :=
  match k with
  | ErrorType.RATE_LIMIT => 300
  | ErrorType.NETWORK => 30
  | ErrorType.GEO_RESTRICTION => 60
  | ErrorType.UNKNOWN => 45
  | _ => 30

/-- A candidate item as built by `get_user_videos`
(`src/tiktok_monitor.py` lines 380-386): id, url and the
`timestamp` field (defaulting to 0 when the extractor omits it). -/
structure Video where
  id : String
  url : String
  timestamp : Int
deriving DecidableEq

/-- The dedup filter of `monitor_user` (`src/tiktok_monitor.py` lines
522-529): a candidate is appended to `new_videos` iff
`(timestamp > last_timestamp or not is_video_downloaded(id))` and not
`(timestamp > 0 and timestamp <= last_timestamp)` (the `continue`). -/
def selectNew (videos : List Video) (lastTimestamp : Int)
    (downloadedBefore : String → Bool) : List Video :=
  videos.filter fun v =>
    (decide (lastTimestamp < v.timestamp) || !downloadedBefore v.id) &&
      !(decide (0 < v.timestamp) && decide (v.timestamp ≤ lastTimestamp))

/-- C3: for every candidate list, watermark and known-id predicate, the
dedup filter never selects a candidate whose timestamp is positive and
at most the watermark, even when the id is unknown; and on watermark
1000 with candidates a@1200, b@900 and no known ids, exactly a is
selected. -/
theorem claim3_dedup_filter (videos : List Video) (wm : Int)
    (known : String → Bool) :
    (∀ v ∈ selectNew videos wm known, ¬(0 < v.timestamp ∧ v.timestamp ≤ wm)) ∧
    selectNew [⟨"a", "urlA", 1200⟩, ⟨"b", "urlB", 900⟩] 1000 (fun _ => false) =
      [⟨"a", "urlA", 1200⟩] := by
  constructor
  · intro v hv
    have hp := (List.mem_filter.mp hv).2
    simp only [Bool.and_eq_true, Bool.not_eq_true', Bool.and_eq_false_iff,
      decide_eq_false_iff_not, not_lt, not_le] at hp
    rcases hp.2 with h | h
    · exact fun hc => absurd hc.1 (not_lt.mpr h)
    · exact fun hc => absurd hc.2 (not_le.mpr h)
  · rfl

/-- Witness for `claim3_dedup_filter` at a concrete selection. -/
theorem claim3_dedup_filter_witness :
    ¬(0 < (Video.mk "a" "urlA" 1200).timestamp ∧
        (Video.mk "a" "urlA" 1200).timestamp ≤ (1000 : Int)) :=
  (claim3_dedup_filter [⟨"a", "urlA", 1200⟩, ⟨"b", "urlB", 900⟩] 1000
      (fun _ => false)).1
    ⟨"a", "urlA", 1200⟩ (by decide)

/-- C4: retryability is true exactly for the kinds `NETWORK` and
`RATE_LIMIT` and false for every other kind including `UNKNOWN`; and
classifying "HTTP Error 429 Too Many Requests" yields kind
`RATE_LIMIT`, retryable `true`, suggested wait 300 seconds. -/
theorem claim4_retryability :
    (∀ k : ErrorType,
      isRetryable k = (k = ErrorType.NETWORK ∨ k = ErrorType.RATE_LIMIT : Prop)) ∧
    analyzeError "HTTP Error 429 Too Many Requests" = ErrorType.RATE_LIMIT ∧
    isRetryable (analyzeError "HTTP Error 429 Too Many Requests") = true ∧
    getWaitTime (analyzeError "HTTP Error 429 Too Many Requests") = 300 := by
  refine ⟨fun k => ?_, by decide, by decide, by decide⟩
  cases k <;> simp [isRetryable, retryableTypes, nonRetryableTypes]

/-- Witness for `claim4_retryability`: the retryability table evaluated
at the classified kind of the 429 scenario. -/
theorem claim4_retryability_witness :
    isRetryable ErrorType.RATE_LIMIT =
      (ErrorType.RATE_LIMIT = ErrorType.NETWORK ∨
        ErrorType.RATE_LIMIT = ErrorType.RATE_LIMIT : Prop) :=
  claim4_retryability.1 ErrorType.RATE_LIMIT

/-! ### Retry loop of `get_user_videos` / `download_video` -/

/-- Result of one run of the retry loop of `get_user_videos`
(`src/tiktok_monitor.py` lines 366-405) or `download_video` (lines
428-455): the returned value or classified error, how many times the
wrapped action was invoked, and the delays slept (in order). -/
structure RetryOutcome (α : Type) where
  result : Except ErrorType α
  invocations : Nat
  sleeps : List Nat

/-- The shared retry skeleton of `get_user_videos` and `download_video`
(`src/tiktok_monitor.py` lines 369-405 and 431-455): `action attempt` is
the outcome of the attempt-th invocation of the wrapped `yt_dlp` call
(`Except.error e` carries the exception text). On failure the error is
classified; if the attempt is not the last and the error is retryable
the loop sleeps `get_retry_wait_time` (the classifier's fixed per-kind
wait) and retries, otherwise it returns the classified error. `fuel`
counts the iterations left in Python's `for attempt in
range(1, max_retries + 1)`; the fuel-0 case is the fallthrough
`return [], last_error` after the loop. -/
def retryLoopGo (action : Nat → Except String α) (maxRetries attempt invs : Nat)
    (sleeps : List Nat) (lastErr : Option ErrorType) (fuel : Nat) : RetryOutcome α :=
  match fuel with
  | 0 => { result := Except.error (lastErr.getD ErrorType.UNKNOWN),
           invocations := invs, sleeps := sleeps }
  | f + 1 =>
    match action attempt with
    | Except.ok v => { result := Except.ok v, invocations := invs + 1, sleeps := sleeps }
    | Except.error e =>
      let kind := analyzeError e
      if attempt < maxRetries ∧ isRetryable kind = true then
        retryLoopGo action maxRetries (attempt + 1) (invs + 1)
          (sleeps ++ [getWaitTime kind]) (some kind) f
      else
        { result := Except.error kind, invocations := invs + 1, sleeps := sleeps }

/-- Entry point of the retry loop: attempt starts at 1, `max_retries = 3`
in both source functions (kept as a parameter here). -/
def retryLoop (action : Nat → Except String α) (maxRetries : Nat) : RetryOutcome α :=
  retryLoopGo action maxRetries 1 0 [] none maxRetries

theorem retryLoopGo_invocations_le (action : Nat → Except String α)
    (maxRetries : Nat) (fuel : Nat) :
    ∀ attempt invs sleeps lastErr,
      (retryLoopGo action maxRetries attempt invs sleeps lastErr fuel).invocations ≤
        invs + fuel := by
  induction fuel with
  | zero => intro attempt invs sleeps lastErr; simp [retryLoopGo]
  | succ f ih =>
    intro attempt invs sleeps lastErr
    simp only [retryLoopGo]
    cases action attempt with
    | ok v => simp
    | error e =>
      simp only []
      split
      · exact le_trans (ih (attempt + 1) (invs + 1) _ _) (by omega)
      · simp

theorem retryLoopGo_sleeps_extend (action : Nat → Except String α)
    (maxRetries : Nat) (fuel : Nat) :
    ∀ attempt invs sleeps lastErr,
      ∃ rest, (retryLoopGo action maxRetries attempt invs sleeps lastErr fuel).sleeps =
        sleeps ++ rest := by
  induction fuel with
  | zero => intro attempt invs sleeps lastErr; exact ⟨[], by simp [retryLoopGo]⟩
  | succ f ih =>
    intro attempt invs sleeps lastErr
    simp only [retryLoopGo]
    cases action attempt with
    | ok v => exact ⟨[], by simp⟩
    | error e =>
      simp only []
      split
      · obtain ⟨rest, hrest⟩ :=
          ih (attempt + 1) (invs + 1) (sleeps ++ [getWaitTime (analyzeError e)]) (some (analyzeError e))
        exact ⟨getWaitTime (analyzeError e) :: rest, by simpa using hrest⟩
      · exact ⟨[], by simp⟩

/-- C5: if the first invocation of the wrapped action fails with a
non-retryable classified error, the action is invoked exactly once, no
delay is slept, and that classified failure is returned; and for every
action the loop invokes the action at most `maxRetries` times. -/
theorem claim5_retry_bounds (action : Nat → Except String α) (maxRetries : Nat)
    (e : String) (hmax : 1 ≤ maxRetries) (h1 : action 1 = Except.error e)
    (h2 : isRetryable (analyzeError e) = false) :
    ((retryLoop action maxRetries).invocations = 1 ∧
      (retryLoop action maxRetries).sleeps = [] ∧
      (retryLoop action maxRetries).result = Except.error (analyzeError e)) ∧
    (∀ act : Nat → Except String α,
      (retryLoop act maxRetries).invocations ≤ maxRetries) := by
  constructor
  · obtain ⟨f, rfl⟩ : ∃ f, maxRetries = f + 1 := ⟨maxRetries - 1, by omega⟩
    simp only [retryLoop, retryLoopGo, h1]
    rw [if_neg (by simp [h2])]
    exact ⟨rfl, rfl, rfl⟩
  · intro act
    simpa using retryLoopGo_invocations_le act maxRetries maxRetries 1 0 [] none

/-- Witness for `claim5_retry_bounds`: a geo-restriction message is
classified non-retryable, so a single attempt is made. -/
theorem claim5_retry_bounds_witness :
    (retryLoop (fun _ =>
        (Except.error "Video not available in your region" : Except String Unit)) 3).invocations = 1 :=
  (claim5_retry_bounds (fun _ => Except.error "Video not available in your region") 3
      "Video not available in your region" (by decide) rfl (by decide)).1.1

/-! ### BackoffPolicy: `get_retry_delay` of `src/retry_utils.py` -/

/-- Constants of `RetryConfig`
(`src/retry_utils.py` lines 12-32). -/
def NETWORK_RETRY_DELAY : Nat × Nat := (10, 30)

def API_RETRY_DELAY : Nat × Nat := (5, 15)

def DOWNLOAD_RETRY_DELAY : Nat × Nat := (15, 45)

def USE_EXPONENTIAL_BACKOFF : Bool := true

def BACKOFF_MULTIPLIER : ℚ := 2

/-- Python's `int()` on the nonnegative reals produced here: truncation
toward zero of a rational. -/
def pyInt (q : ℚ) : ℤ :=
  if 0 ≤ q then ⌊q⌋ else -⌊-q⌋

/-- Embeds `get_retry_delay` (`src/retry_utils.py` lines 35-57). The
`random.uniform(min_delay, max_delay)` draw is passed in as `base`
(both branches draw once); with `exponential` and
`RetryConfig.USE_EXPONENTIAL_BACKOFF` the base is multiplied by
`BACKOFF_MULTIPLIER ** (attempt - 1)` and capped at `max_delay * 3`,
then truncated by `int(...)`. -/
def getRetryDelay (minDelay maxDelay : ℚ) (attempt : Nat) (exponential : Bool)
    (base : ℚ) : ℤ :=
  if exponential && USE_EXPONENTIAL_BACKOFF then
    pyInt (min (base * BACKOFF_MULTIPLIER ^ (attempt - 1)) (maxDelay * 3))
  else
    pyInt base

theorem pyInt_le (q c : ℚ) (hq : q ≤ c) (hc : 0 ≤ c) :
    ((pyInt q : ℤ) : ℚ) ≤ c := by
  by_cases h : 0 ≤ q
  · rw [pyInt, if_pos h]
    exact le_trans (Int.floor_le q) hq
  · rw [pyInt, if_neg h]
    push_neg at h
    have h2 : (0 : ℤ) ≤ ⌊-q⌋ := Int.floor_nonneg.mpr (by linarith)
    have h3 : ((-⌊-q⌋ : ℤ) : ℚ) ≤ 0 := by exact_mod_cast neg_nonpos.mpr h2
    linarith

theorem pyInt_floor_of_nonneg (q : ℚ) (h : 0 ≤ q) : pyInt q = ⌊q⌋ := by
  rw [pyInt, if_pos h]

theorem getRetryDelay_exp (minDelay maxDelay : ℚ) (attempt : Nat) (base : ℚ) :
    getRetryDelay minDelay maxDelay attempt true base =
      pyInt (min (base * 2 ^ (attempt - 1)) (maxDelay * 3)) := rfl

theorem getRetryDelay_nonexp (minDelay maxDelay : ℚ) (attempt : Nat) (base : ℚ) :
    getRetryDelay minDelay maxDelay attempt false base = pyInt base := rfl

theorem getRetryDelay_le_cap (minDelay maxDelay : ℚ) (attempt : Nat) (base : ℚ)
    (hmax : 0 ≤ maxDelay) :
    ((getRetryDelay minDelay maxDelay attempt true base : ℤ) : ℚ) ≤ 3 * maxDelay := by
  rw [getRetryDelay_exp]
  have := pyInt_le (min (base * 2 ^ (attempt - 1)) (maxDelay * 3)) (maxDelay * 3)
    (min_le_right _ _) (by nlinarith)
  linarith

/-- C7: for `0 ≤ min ≤ max` and a uniform draw `base ∈ [min, max]`, the
exponential backoff delay is the (truncated) draw multiplied by
`2^(attempt-1)` capped at `max * 3`; it never exceeds `3 * max`;
whenever the cap does not bind it equals the floor of
`base * 2^(attempt-1)`; and at attempt 1 it is the undistorted draw —
identical to the non-exponential branch on the same draw. -/
theorem claim7_backoff (minDelay maxDelay base : ℚ) (attempt : Nat)
    (h0 : 0 ≤ minDelay) (h1 : minDelay ≤ maxDelay)
    (hb1 : minDelay ≤ base) (hb2 : base ≤ maxDelay) :
    getRetryDelay minDelay maxDelay attempt true base =
      ⌊min (base * 2 ^ (attempt - 1)) (maxDelay * 3)⌋ ∧
    ((getRetryDelay minDelay maxDelay attempt true base : ℤ) : ℚ) ≤ 3 * maxDelay ∧
    (base * 2 ^ (attempt - 1) ≤ maxDelay * 3 →
      getRetryDelay minDelay maxDelay attempt true base = ⌊base * 2 ^ (attempt - 1)⌋) ∧
    getRetryDelay minDelay maxDelay 1 true base =
      getRetryDelay minDelay maxDelay 1 false base := by
  have hbase : (0 : ℚ) ≤ base := le_trans h0 hb1
  have hmax : (0 : ℚ) ≤ maxDelay := le_trans h0 h1
  have hmin0 : (0 : ℚ) ≤ min (base * 2 ^ (attempt - 1)) (maxDelay * 3) := by
    apply le_min
    · positivity
    · nlinarith
  refine ⟨?_, getRetryDelay_le_cap minDelay maxDelay attempt base hmax, ?_, ?_⟩
  · rw [getRetryDelay_exp, pyInt_floor_of_nonneg _ hmin0]
  · intro hcap
    rw [getRetryDelay_exp, min_eq_left hcap,
      pyInt_floor_of_nonneg _ (by positivity)]
  · have hble : base ≤ maxDelay * 3 := by nlinarith
    rw [getRetryDelay_exp, getRetryDelay_nonexp]
    norm_num
    rw [min_eq_left hble]

/-- Witness for `claim7_backoff`: range [10, 30], draw 20, attempt 2. -/
theorem claim7_backoff_witness :
    getRetryDelay 10 30 2 true 20 = ⌊min ((20 : ℚ) * 2 ^ (2 - 1)) (30 * 3)⌋ :=
  (claim7_backoff 10 30 20 2 (by norm_num) (by norm_num) (by norm_num) (by norm_num)).1

/-! ### The per-source monitor cycle `monitor_user` -/

/-- A row of the `monitored_users` table (`src/tiktok_monitor.py` lines
71-80), as read and written by `monitor_user`. -/
structure UserRecord where
  lastCheck : Nat
  lastVideoTimestamp : Int
  totalVideos : Nat
  enabled : Bool
deriving DecidableEq

/-- Metadata of a completed download, as returned by `download_video`
through `info` (`src/tiktok_monitor.py` lines 436-439): its id and the
`info.get('timestamp', 0)` field used for the watermark. -/
structure DlInfo where
  id : String
  timestamp : Int
deriving DecidableEq

/-- A database write performed during one cycle of `monitor_user`, in
program order: `saveMeta` is `save_video_metadata` (line 579),
`setWatermark` is `update_last_video_timestamp` (line 599), `addTotal`
and `setLastCheck` are the closing `UPDATE monitored_users` statements
(lines 490-515, 535-543, 602-611). -/
inductive Effect
  | saveMeta (id : String) (timestamp : Int)
  | setWatermark (timestamp : Int)
  | addTotal (count : Nat)
  | setLastCheck
deriving DecidableEq

def Effect.isSaveMeta : Effect → Bool
  | Effect.saveMeta _ _ => true
  | _ => false

def Effect.isSetWatermark : Effect → Bool
  | Effect.setWatermark _ => true
  | _ => false

/-- Pointwise update of the `monitored_users` table: every SQL statement
of `monitor_user` carries `WHERE username = ?`. -/
def setUser (db : String → UserRecord) (username : String) (r : UserRecord) :
    String → UserRecord :=
  fun u => if u = username then r else db u

/-- The `UPDATE monitored_users SET last_check = ?` statement used on the
fetch-error, empty-list and no-new-videos paths of `monitor_user`
(`src/tiktok_monitor.py` lines 490-499, 506-515, 534-543). -/
def updateLastCheck (db : String → UserRecord) (username : String) (now : Nat) :
    String → UserRecord :=
  setUser db username { db username with lastCheck := now }

/-- Accumulator of the download loop of `monitor_user`
(`src/tiktok_monitor.py` lines 555-595): `downloaded`,
`newest_timestamp`, `download_error`, plus the trace of
`save_video_metadata` writes. -/
structure DlAcc where
  count : Nat
  newest : Int
  err : Option ErrorType
  trace : List Effect

def isErr : Except ε α → Bool
  | Except.error _ => true
  | Except.ok _ => false

/-- The download loop over `new_videos` (`src/tiktok_monitor.py` lines
560-595): on a per-item error, record it as `download_error` and
`continue`; on success, save the metadata, count it, and raise
`newest_timestamp` when the stored item's timestamp exceeds it. The
`notify_video` call and the anti-bot sleep have no effect on state and
are omitted. -/
def dlLoop (download : Video → Except ErrorType DlInfo) :
    List Video → DlAcc → DlAcc
  | [], acc => acc
  | v :: rest, acc =>
    match download v with
    | Except.error e => dlLoop download rest { acc with err := some e }
    | Except.ok info =>
      dlLoop download rest
        { count := acc.count + 1
          newest := if acc.newest < info.timestamp then info.timestamp else acc.newest
          err := acc.err
          trace := acc.trace ++ [Effect.saveMeta info.id info.timestamp] }

/-- Result of one `monitor_user` cycle: the returned pair
`(downloaded, error)`, the new `monitored_users` table, and the ordered
trace of database writes for this user's row and videos. -/
structure CycleResult where
  downloaded : Nat
  error : Option ErrorType
  db : String → UserRecord
  trace : List Effect

/-- Embeds `monitor_user` (`src/tiktok_monitor.py` lines 457-614), its normal
(non-raising) paths. `fetch` is the `(videos, error)` pair returned by
`get_user_videos`; `known` is `is_video_downloaded`; `download` gives
each `download_video` outcome. The four paths: fetch error (return the
error after touching `last_check`); empty list; no new videos after the
dedup filter; and the download batch followed by the conditional
watermark write and the closing counters update. -/
def monitorUser (db : String → UserRecord) (username : String) (now : Nat)
    (fetch : Except ErrorType (List Video)) (known : String → Bool)
    (download : Video → Except ErrorType DlInfo) : CycleResult :=
  let lastTimestamp := (db username).lastVideoTimestamp
  match fetch with
  | Except.error e =>
    { downloaded := 0, error := some e,
      db := updateLastCheck db username now, trace := [Effect.setLastCheck] }
  | Except.ok [] =>
    { downloaded := 0, error := none,
      db := updateLastCheck db username now, trace := [Effect.setLastCheck] }
  | Except.ok (v :: vs) =>
    match selectNew (v :: vs) lastTimestamp known with
    | [] =>
      { downloaded := 0, error := none,
        db := updateLastCheck db username now, trace := [Effect.setLastCheck] }
    | nv :: nvs =>
      let dl := dlLoop download (nv :: nvs) ⟨0, lastTimestamp, none, []⟩
      let db1 :=
        if lastTimestamp < dl.newest then
          setUser db username
            { db username with lastVideoTimestamp := dl.newest, lastCheck := now }
        else db
      let db2 :=
        setUser db1 username
          { db1 username with
              totalVideos := (db1 username).totalVideos + dl.count, lastCheck := now }
      let wmTrace :=
        if lastTimestamp < dl.newest then [Effect.setWatermark dl.newest] else []
      { downloaded := dl.count, error := dl.err, db := db2,
        trace := dl.trace ++ wmTrace ++ [Effect.addTotal dl.count, Effect.setLastCheck] }

/-- The pair `(downloaded, error)` that `start_monitoring` sees from one
`monitor_user` call. -/
def cycleOutcome (db : String → UserRecord) (username : String) (now : Nat)
    (fetch : Except ErrorType (List Video)) (known : String → Bool)
    (download : Video → Except ErrorType DlInfo) : Nat × Option ErrorType :=
  let r := monitorUser db username now fetch known download
  (r.downloaded, r.error)

/-- The outer `try/except` of `monitor_user` (`src/tiktok_monitor.py`
lines 469 and 616-618): a body that raises an unexpected exception
(`Except.error msg`) is converted to the return value `(0, None)`. -/
def monitorUserResult (body : Except String (Nat × Option ErrorType)) :
    Nat × Option ErrorType :=
  match body with
  | Except.ok r => r
  | Except.error _ => (0, none)

/-! ### The monitoring loop `start_monitoring` -/

/-- The constant `max_consecutive_all_failed = 1` (`src/tiktok_monitor.py` line 636). -/
def maxConsecutiveAllFailed : Nat := 1

/-- The users appended to `failed_users` in one iteration of
`start_monitoring` (`src/tiktok_monitor.py` lines 650-661): exactly
those whose `monitor_user` call returned an error object. -/
def failedUsers (users : List String) (results : String → Nat × Option ErrorType) :
    List String :=
  users.filter fun u => ((results u).2).isSome

/-- Outcome of the circuit-breaker accounting at the end of one
iteration of `start_monitoring`. -/
structure IterResult where
  failed : List String
  consecutive : Nat
  stopped : Bool
  notifications : List String

/-- The circuit-breaker block of `start_monitoring`
(`src/tiktok_monitor.py` lines 674-725): if all users failed (and there
is at least one), increment `consecutive_all_failed`, notify on the
first full failure, and stop (return) once the count reaches the
threshold; otherwise reset the count to 0. -/
def iterationStep (users : List String) (results : String → Nat × Option ErrorType)
    (consecutive threshold : Nat) : IterResult :=
  let failed := failedUsers users results
  if failed.length = users.length ∧ 0 < users.length then
    let c := consecutive + 1
    let firstNote := if c = 1 then ["⚠️ All Users Failed"] else []
    if threshold ≤ c then
      { failed := failed, consecutive := c, stopped := true,
        notifications := firstNote ++ ["🛑 Monitor STOPPED"] }
    else
      { failed := failed, consecutive := c, stopped := false,
        notifications := firstNote }
  else
    { failed := failed, consecutive := 0, stopped := false, notifications := [] }

/-- How the monitoring loop of `start_monitoring` ends: `tripped` is the
circuit-breaker `return` (line 722), `limit` is the `max_iterations`
break (lines 735-737). -/
inductive StopReason
  | tripped
  | limit
deriving DecidableEq

/-- The `while True` loop of `start_monitoring` (`src/tiktok_monitor.py`
lines 639-744) with a `max_iterations` bound given as `fuel`:
`results i u` is the `(downloaded, error)` pair `monitor_user` returns
for user `u` in iteration `i` (1-based). Returns how the loop ended and
how many iterations ran. -/
def runMonitor (users : List String)
    (results : Nat → String → Nat × Option ErrorType) (threshold : Nat)
    (consecutive itersDone : Nat) (fuel : Nat) : StopReason × Nat :=
  match fuel with
  | 0 => (StopReason.limit, itersDone)
  | f + 1 =>
    let r := iterationStep users (results (itersDone + 1)) consecutive threshold
    if r.stopped then (StopReason.tripped, itersDone + 1)
    else runMonitor users results threshold r.consecutive (itersDone + 1) f

/-! ### Lemmas about the download loop -/

theorem dlLoop_newest_le (download : Video → Except ErrorType DlInfo)
    (vs : List Video) : ∀ acc : DlAcc, acc.newest ≤ (dlLoop download vs acc).newest := by
  induction vs with
  | nil => intro acc; simp [dlLoop]
  | cons v rest ih =>
    intro acc
    simp only [dlLoop]
    cases download v with
    | error e => exact ih _
    | ok info =>
      refine le_trans ?_ (ih _)
      by_cases h : acc.newest < info.timestamp <;> simp [h]
      · exact le_of_lt h

theorem dlLoop_trace_saveMeta (download : Video → Except ErrorType DlInfo)
    (vs : List Video) :
    ∀ acc : DlAcc, (∀ e ∈ acc.trace, e.isSaveMeta = true) →
      ∀ e ∈ (dlLoop download vs acc).trace, e.isSaveMeta = true := by
  induction vs with
  | nil => intro acc hacc; simpa [dlLoop] using hacc
  | cons v rest ih =>
    intro acc hacc
    simp only [dlLoop]
    cases download v with
    | error e => exact ih _ hacc
    | ok info =>
      refine ih _ ?_
      intro e he
      rcases List.mem_append.mp he with h | h
      · exact hacc e h
      · simp only [List.mem_singleton] at h
        subst h
        rfl

theorem dlLoop_err_isSome (download : Video → Except ErrorType DlInfo)
    (vs : List Video) :
    ∀ acc : DlAcc,
      ((∃ v2 ∈ vs, isErr (download v2) = true) ∨ acc.err.isSome = true) →
      ((dlLoop download vs acc).err).isSome = true := by
  induction vs with
  | nil =>
    intro acc h
    rcases h with ⟨v2, hmem, _⟩ | h
    · exact absurd hmem (List.not_mem_nil v2)
    · simpa [dlLoop] using h
  | cons v rest ih =>
    intro acc h
    simp only [dlLoop]
    cases hd : download v with
    | error e =>
      exact ih _ (Or.inr rfl)
    | ok info =>
      refine ih _ ?_
      rcases h with ⟨v2, hmem, herr⟩ | h
      · rcases List.mem_cons.mp hmem with rfl | hmem2
        · rw [hd] at herr
          exact absurd herr (by simp [isErr])
        · exact Or.inl ⟨v2, hmem2, herr⟩
      · exact Or.inr h

theorem Effect.not_wm_of_saveMeta (e : Effect) (h : e.isSaveMeta = true) :
    e.isSetWatermark = false := by
  cases e <;> simp_all [Effect.isSaveMeta, Effect.isSetWatermark]

/-- C9: after every monitor cycle — fetch error, empty list, nothing new
after dedup, or a download batch — the monitored user's `last_check`
field is set to the cycle's time, and the row of every other user is
unchanged. -/
theorem claim9_frame (db : String → UserRecord) (username : String) (now : Nat)
    (fetch : Except ErrorType (List Video)) (known : String → Bool)
    (download : Video → Except ErrorType DlInfo) :
    ((monitorUser db username now fetch known download).db username).lastCheck = now ∧
    ∀ u, u ≠ username →
      (monitorUser db username now fetch known download).db u = db u := by
  cases fetch with
  | error e =>
    exact ⟨by simp [monitorUser, updateLastCheck, setUser],
      fun u hu => by simp [monitorUser, updateLastCheck, setUser, hu]⟩
  | ok videos =>
    cases videos with
    | nil =>
      exact ⟨by simp [monitorUser, updateLastCheck, setUser],
        fun u hu => by simp [monitorUser, updateLastCheck, setUser, hu]⟩
    | cons v vs =>
      cases hsel : selectNew (v :: vs) (db username).lastVideoTimestamp known with
      | nil =>
        exact ⟨by simp [monitorUser, hsel, updateLastCheck, setUser],
          fun u hu => by simp [monitorUser, hsel, updateLastCheck, setUser, hu]⟩
      | cons nv nvs =>
        constructor
        · simp only [monitorUser, hsel, setUser]
          simp
        · intro u hu
          simp only [monitorUser, hsel, setUser]
          simp only [if_neg hu]
          split
          · simp [setUser, hu]
          · rfl

theorem trivialTrace_props (old : Int) :
    (List.filter Effect.isSetWatermark [Effect.setLastCheck]).length ≤ 1 ∧
    (∀ w : Int, Effect.setWatermark w ∈ ([Effect.setLastCheck] : List Effect) → old < w) ∧
    ∃ pre suf, ([Effect.setLastCheck] : List Effect) = pre ++ suf ∧
      (∀ e ∈ pre, e.isSetWatermark = false) ∧ (∀ e ∈ suf, e.isSaveMeta = false) := by
  refine ⟨by decide, ?_, [], [Effect.setLastCheck], rfl, by simp, by decide⟩
  intro w hw
  simp at hw

/-- C8: across every monitor cycle the persisted watermark
(`last_video_timestamp`) is non-decreasing; the trace of the cycle holds
at most one watermark write; any watermark written strictly exceeds the
previous watermark; and the trace splits into a part holding every item
write followed by a part holding every watermark write — the watermark
is never advanced mid-batch. -/
theorem claim8_watermark (db : String → UserRecord) (username : String) (now : Nat)
    (fetch : Except ErrorType (List Video)) (known : String → Bool)
    (download : Video → Except ErrorType DlInfo) :
    (db username).lastVideoTimestamp ≤
      ((monitorUser db username now fetch known download).db username).lastVideoTimestamp ∧
    ((monitorUser db username now fetch known download).trace.filter
        Effect.isSetWatermark).length ≤ 1 ∧
    (∀ w : Int,
      Effect.setWatermark w ∈ (monitorUser db username now fetch known download).trace →
      (db username).lastVideoTimestamp < w) ∧
    ∃ pre suf,
      (monitorUser db username now fetch known download).trace = pre ++ suf ∧
      (∀ e ∈ pre, e.isSetWatermark = false) ∧
      (∀ e ∈ suf, e.isSaveMeta = false) := by
  cases fetch with
  | error e =>
    refine ⟨?_, ?_⟩
    · simp [monitorUser, updateLastCheck, setUser]
    · simpa only [monitorUser] using trivialTrace_props (db username).lastVideoTimestamp
  | ok videos =>
    cases videos with
    | nil =>
      refine ⟨?_, ?_⟩
      · simp [monitorUser, updateLastCheck, setUser]
      · simpa only [monitorUser] using trivialTrace_props (db username).lastVideoTimestamp
    | cons v vs =>
      cases hsel : selectNew (v :: vs) (db username).lastVideoTimestamp known with
      | nil =>
        refine ⟨?_, ?_⟩
        · simp [monitorUser, hsel, updateLastCheck, setUser]
        · simpa only [monitorUser, hsel] using
            trivialTrace_props (db username).lastVideoTimestamp
      | cons nv nvs =>
        have hsm : ∀ e ∈ (dlLoop download (nv :: nvs)
            ⟨0, (db username).lastVideoTimestamp, none, []⟩).trace,
            e.isSaveMeta = true :=
          dlLoop_trace_saveMeta download (nv :: nvs) _ (by simp)
        have hnil : (dlLoop download (nv :: nvs)
            ⟨0, (db username).lastVideoTimestamp, none, []⟩).trace.filter
            Effect.isSetWatermark = [] :=
          List.filter_eq_nil_iff.mpr fun e he => by
            simp [Effect.not_wm_of_saveMeta e (hsm e he)]
        refine ⟨?_, ?_, ?_, ?_⟩
        · by_cases hc : (db username).lastVideoTimestamp <
              (dlLoop download (nv :: nvs)
                ⟨0, (db username).lastVideoTimestamp, none, []⟩).newest
          · simp [monitorUser, hsel, setUser, hc]
            exact le_of_lt hc
          · simp [monitorUser, hsel, setUser, hc]
        · simp only [monitorUser, hsel]
          rw [List.filter_append, List.filter_append, hnil]
          split <;> simp [Effect.isSetWatermark]
        · intro w hw
          simp only [monitorUser, hsel] at hw
          rcases List.mem_append.mp hw with hw2 | hw3
          · rcases List.mem_append.mp hw2 with hw4 | hw5
            · have := hsm _ hw4
              simp [Effect.isSaveMeta] at this
            · by_cases hc : (db username).lastVideoTimestamp <
                  (dlLoop download (nv :: nvs)
                    ⟨0, (db username).lastVideoTimestamp, none, []⟩).newest
              · rw [if_pos hc] at hw5
                simp only [List.mem_singleton, Effect.setWatermark.injEq] at hw5
                subst hw5
                exact hc
              · rw [if_neg hc] at hw5
                simp at hw5
          · simp at hw3
        · refine ⟨(dlLoop download (nv :: nvs)
              ⟨0, (db username).lastVideoTimestamp, none, []⟩).trace,
            (if (db username).lastVideoTimestamp <
                (dlLoop download (nv :: nvs)
                  ⟨0, (db username).lastVideoTimestamp, none, []⟩).newest
              then [Effect.setWatermark (dlLoop download (nv :: nvs)
                ⟨0, (db username).lastVideoTimestamp, none, []⟩).newest] else []) ++
              [Effect.addTotal (dlLoop download (nv :: nvs)
                ⟨0, (db username).lastVideoTimestamp, none, []⟩).count,
               Effect.setLastCheck], ?_, ?_, ?_⟩
          · simp only [monitorUser, hsel]
            rw [List.append_assoc]
          · intro e he
            exact Effect.not_wm_of_saveMeta e (hsm e he)
          · intro e he
            rcases List.mem_append.mp he with h1 | h2
            · split at h1
              · simp only [List.mem_singleton] at h1
                subst h1
                rfl
              · simp at h1
            · rcases List.mem_cons.mp h2 with rfl | h3
              · rfl
              · simp only [List.mem_singleton] at h3
                subst h3
                rfl

/-- Witness for `claim8_watermark` at a concrete cycle. -/
theorem claim8_watermark_witness :
    ((0 : Int) ≤
      ((monitorUser (fun _ => ⟨0, 0, 0, true⟩) "carol" 9
          (Except.ok [⟨"v2", "url2", 50⟩]) (fun _ => false)
          (fun _ => Except.ok ⟨"v2", 50⟩)).db "carol").lastVideoTimestamp) :=
  (claim8_watermark (fun _ => ⟨0, 0, 0, true⟩) "carol" 9
      (Except.ok [⟨"v2", "url2", 50⟩]) (fun _ => false)
      (fun _ => Except.ok ⟨"v2", 50⟩)).1

/-- Witness for `claim9_frame` at a concrete cycle. -/
theorem claim9_frame_witness :
    ((monitorUser (fun _ => ⟨0, 0, 0, true⟩) "alice" 7
        (Except.ok [⟨"v1", "url1", 100⟩]) (fun _ => false)
        (fun _ => Except.ok ⟨"v1", 100⟩)).db "bob") = ⟨0, 0, 0, true⟩ :=
  (claim9_frame (fun _ => ⟨0, 0, 0, true⟩) "alice" 7
      (Except.ok [⟨"v1", "url1", 100⟩]) (fun _ => false)
      (fun _ => Except.ok ⟨"v1", 100⟩)).2 "bob" (by decide)

theorem length_filter_lt_of_exists_not (l : List α) (p : α → Bool) (x : α)
    (hx : x ∈ l) (hpx : p x = false) : (l.filter p).length < l.length := by
  induction l with
  | nil => exact absurd hx (List.not_mem_nil x)
  | cons a rest ih =>
    rcases List.mem_cons.mp hx with rfl | hx2
    · rw [List.filter_cons, if_neg (by simp [hpx])]
      exact Nat.lt_succ_of_le (List.length_filter_le p rest)
    · rw [List.filter_cons]
      split
      · simpa using Nat.succ_lt_succ (ih hx2)
      · exact Nat.lt_succ_of_lt (ih hx2)

/-- C1 fails on the code: a cycle whose list fetch succeeded but in
which one item download failed returns that download error, and
`start_monitoring` then counts the source among `failed_users`. Here
the fetch returns one video, its download fails with a network error,
and the single source "alice" is counted as failed. -/
theorem claim1_counterexample :
    (monitorUser (fun _ => ⟨0, 0, 0, true⟩) "alice" 1
        (Except.ok [⟨"v1", "url1", 100⟩]) (fun _ => false)
        (fun _ => Except.error ErrorType.NETWORK)).error = some ErrorType.NETWORK ∧
    failedUsers ["alice"]
        (fun u => cycleOutcome (fun _ => ⟨0, 0, 0, true⟩) u 1
          (Except.ok [⟨"v1", "url1", 100⟩]) (fun _ => false)
          (fun _ => Except.error ErrorType.NETWORK)) = ["alice"] := by
  exact ⟨rfl, rfl⟩

/-- C1 amended: a source is counted as failed for circuit-breaker
accounting whenever its cycle returns any error — also when the list
fetch succeeded but an individual item download failed (the cycle
returns the last download error); only an error-free cycle counts as
succeeded. -/
theorem claim1_amended (db : String → UserRecord) (username : String) (now : Nat)
    (videos : List Video) (known : String → Bool)
    (download : Video → Except ErrorType DlInfo)
    (hfail : ∃ v2 ∈ selectNew videos (db username).lastVideoTimestamp known,
      isErr (download v2) = true) :
    ((monitorUser db username now (Except.ok videos) known download).error).isSome = true ∧
    username ∈ failedUsers [username]
      (fun u => cycleOutcome db u now (Except.ok videos) known download) := by
  have herr :
      ((monitorUser db username now (Except.ok videos) known download).error).isSome = true := by
    cases videos with
    | nil =>
      obtain ⟨v2, hmem, _⟩ := hfail
      rw [show selectNew [] (db username).lastVideoTimestamp known = [] from rfl] at hmem
      exact absurd hmem (List.not_mem_nil v2)
    | cons v vs =>
      cases hsel : selectNew (v :: vs) (db username).lastVideoTimestamp known with
      | nil =>
        obtain ⟨v2, hmem, _⟩ := hfail
        rw [hsel] at hmem
        exact absurd hmem (List.not_mem_nil v2)
      | cons nv nvs =>
        rw [hsel] at hfail
        simp only [monitorUser, hsel]
        exact dlLoop_err_isSome download (nv :: nvs) _ (Or.inl hfail)
  refine ⟨herr, ?_⟩
  refine List.mem_filter.mpr ⟨List.mem_singleton_self username, ?_⟩
  simpa [cycleOutcome] using herr

/-- Witness for `claim1_amended`: same data as the counterexample. -/
theorem claim1_amended_witness :
    "dana" ∈ failedUsers ["dana"]
      (fun u => cycleOutcome (fun _ => ⟨0, 0, 0, true⟩) u 2
        (Except.ok [⟨"v3", "url3", 80⟩]) (fun _ => false)
        (fun _ => Except.error ErrorType.RATE_LIMIT)) :=
  (claim1_amended (fun _ => ⟨0, 0, 0, true⟩) "dana" 2 [⟨"v3", "url3", 80⟩]
      (fun _ => false) (fun _ => Except.error ErrorType.RATE_LIMIT)
      ⟨⟨"v3", "url3", 80⟩, by decide, rfl⟩).2

/-- C2: with the hard-coded threshold `max_consecutive_all_failed = 1`,
the first iteration in which every monitored source fails (at least one
source existing) trips the breaker: both operator notifications are
sent and the loop returns cleanly after exactly that one iteration;
while any iteration in which at least one source succeeds resets the
consecutive-failure count to 0 and does not stop. -/
theorem claim2_circuit_breaker (users : List String)
    (results : Nat → String → Nat × Option ErrorType) (fuel : Nat)
    (h1 : users ≠ [])
    (h2 : ∀ u ∈ users, ((results 1 u).2).isSome = true) :
    runMonitor users results maxConsecutiveAllFailed 0 0 (fuel + 1) =
      (StopReason.tripped, 1) ∧
    (iterationStep users (results 1) 0 maxConsecutiveAllFailed).notifications =
      ["⚠️ All Users Failed", "🛑 Monitor STOPPED"] ∧
    (iterationStep users (results 1) 0 maxConsecutiveAllFailed).stopped = true ∧
    ∀ (res2 : String → Nat × Option ErrorType) (c : Nat),
      (∃ u ∈ users, (res2 u).2 = none) →
      (iterationStep users res2 c maxConsecutiveAllFailed).stopped = false ∧
      (iterationStep users res2 c maxConsecutiveAllFailed).consecutive = 0 := by
  have hall : failedUsers users (results 1) = users :=
    List.filter_eq_self.mpr h2
  have hcond : (failedUsers users (results 1)).length = users.length ∧
      0 < users.length :=
    ⟨by rw [hall], List.length_pos.mpr h1⟩
  have hstep : iterationStep users (results 1) 0 maxConsecutiveAllFailed =
      { failed := failedUsers users (results 1), consecutive := 1, stopped := true,
        notifications := ["⚠️ All Users Failed", "🛑 Monitor STOPPED"] } := by
    rw [iterationStep, if_pos hcond]
    rfl
  refine ⟨?_, by rw [hstep], by rw [hstep], ?_⟩
  · rw [runMonitor]
    simp only [Nat.zero_add, hstep]
    rfl
  · intro res2 c hex
    obtain ⟨u, hu, hnone⟩ := hex
    have hlt : (failedUsers users res2).length < users.length :=
      length_filter_lt_of_exists_not users _ u hu (by rw [hnone]; rfl)
    have hcond2 : ¬((failedUsers users res2).length = users.length ∧
        0 < users.length) := by
      intro hcontra
      exact absurd hcontra.1 (Nat.ne_of_lt hlt)
    rw [iterationStep, if_neg hcond2]
    exact ⟨rfl, rfl⟩

/-- Witness for `claim2_circuit_breaker`: one source that fails with a
network error in iteration 1. -/
theorem claim2_circuit_breaker_witness :
    runMonitor ["erin"] (fun _ _ => (0, some ErrorType.NETWORK))
      maxConsecutiveAllFailed 0 0 5 = (StopReason.tripped, 1) :=
  (claim2_circuit_breaker ["erin"] (fun _ _ => (0, some ErrorType.NETWORK)) 4
      (by decide) (fun u _ => rfl)).1

/-- C10: an unexpected exception raised inside a cycle is swallowed by
the outer `try/except` of `monitor_user`, which returns `(0, None)`;
the loop therefore does not list the source as failed, and an iteration
whose cycles all end this way resets the consecutive-failure counter to
0 and does not stop — even though nothing was retrieved. -/
theorem claim10_swallowed_exception (msg : String) (username : String)
    (users : List String) (results : String → Nat × Option ErrorType)
    (c threshold : Nat)
    (hres : results username = monitorUserResult (Except.error msg)) :
    monitorUserResult (Except.error msg) = (0, none) ∧
    username ∉ failedUsers users results ∧
    (iterationStep users (fun _ => monitorUserResult (Except.error msg))
      c threshold).stopped = false ∧
    (iterationStep users (fun _ => monitorUserResult (Except.error msg))
      c threshold).consecutive = 0 := by
  have hval : monitorUserResult (Except.error msg) = ((0 : Nat), (none : Option ErrorType)) := rfl
  refine ⟨hval, ?_, ?_, ?_⟩
  · intro hmem
    have := (List.mem_filter.mp hmem).2
    rw [hres, hval] at this
    simp at this
  all_goals
    have hempty : failedUsers users (fun _ => monitorUserResult (Except.error msg)) = [] :=
      List.filter_eq_nil_iff.mpr fun u _ => by rw [hval]; simp
    have hcond : ¬((failedUsers users
        (fun _ => monitorUserResult (Except.error msg))).length = users.length ∧
        0 < users.length) := by
      rw [hempty]
      rintro ⟨hlen, hpos⟩
      simp at hlen
      omega
    rw [iterationStep, if_neg hcond]

/-- Witness for `claim10_swallowed_exception` at a concrete iteration. -/
theorem claim10_swallowed_exception_witness :
    "frank" ∉ failedUsers ["frank"]
      (fun _ => monitorUserResult (Except.error "boom")) :=
  (claim10_swallowed_exception "boom" "frank" ["frank"]
      (fun _ => monitorUserResult (Except.error "boom")) 4 1 rfl).2.1

/-- C6 fails on the code: on two consecutive rate-limit failures the
retry loop of `get_user_videos` sleeps 300 seconds both times — the
classifier's fixed `get_wait_time` value — and 300 exceeds the hard cap
`3 * max_delay` that `get_retry_delay` with `exponential=True` never
exceeds (`getRetryDelay_le_cap`) for every delay range configured in
`RetryConfig`, so the slept delay cannot be a BackoffPolicy output for
any of them. -/
theorem claim6_counterexample :
    (retryLoop (fun _ =>
        (Except.error "HTTP Error 429 Too Many Requests" : Except String Unit)) 3).sleeps =
      [300, 300] ∧
    3 * NETWORK_RETRY_DELAY.2 < 300 ∧
    3 * API_RETRY_DELAY.2 < 300 ∧
    3 * DOWNLOAD_RETRY_DELAY.2 < 300 :=
  ⟨rfl, by decide, by decide, by decide⟩

/-- C6 amended: in the retry loop of `get_user_videos` /
`download_video`, whenever the current attempt fails with a retryable
classified error and attempts remain, the delay slept before the next
attempt is `get_retry_wait_time` of the classified error — the
classifier's fixed per-kind wait table — independent of the attempt
number and of any backoff range. Stated over every state of the loop
(`retryLoop action maxRetries` starts it at
`retryLoopGo action maxRetries 1 0 [] none maxRetries`, and every later
state is a `retryLoopGo` call): for any attempt number, with `sleeps`
the delays recorded so far, the next recorded delay — index
`sleeps.length` of the run's final sleep list — is
`getWaitTime (analyzeError e)`. -/
theorem claim6_amended (action : Nat → Except String α) (e : String)
    (maxRetries attempt invs fuel : Nat) (sleeps : List Nat)
    (lastErr : Option ErrorType)
    (h1 : action attempt = Except.error e)
    (h2 : isRetryable (analyzeError e) = true)
    (h3 : attempt < maxRetries) :
    ((retryLoopGo action maxRetries attempt invs sleeps lastErr
        (fuel + 1)).sleeps)[sleeps.length]? =
      some (getWaitTime (analyzeError e)) := by
  rw [retryLoopGo]
  simp only [h1]
  rw [if_pos ⟨h3, h2⟩]
  obtain ⟨rest, hrest⟩ := retryLoopGo_sleeps_extend action maxRetries fuel
    (attempt + 1) (invs + 1) (sleeps ++ [getWaitTime (analyzeError e)])
    (some (analyzeError e))
  rw [hrest, List.append_assoc,
    List.getElem?_append_right (le_refl sleeps.length)]
  simp

/-- Witness for `claim6_amended` beyond the first attempt: the state the
run `retryLoop (429-failing action) 3` reaches at attempt 2 with one
300-second sleep already recorded; the delay slept before attempt 3 is
again the fixed 300-second table value. -/
theorem claim6_amended_witness :
    ((retryLoopGo (fun _ =>
        (Except.error "HTTP Error 429 Too Many Requests" : Except String Unit))
        3 2 1 [300] (some ErrorType.RATE_LIMIT) 2).sleeps)[1]? =
      some (getWaitTime (analyzeError "HTTP Error 429 Too Many Requests")) :=
  claim6_amended (fun _ => Except.error "HTTP Error 429 Too Many Requests")
    "HTTP Error 429 Too Many Requests" 3 2 1 1 [300]
    (some ErrorType.RATE_LIMIT) rfl (by decide) (by decide)

end TikTokMonitor
